import Mathlib

/-
  Verification of the @libis/primo-shared-state bridge.

  Shallow embedding of the TypeScript sources:
  - src/actions/shared-actions.ts   (the exported NgRx action creators)
  - src/utils/state-helper.ts       (StateHelper: select$, selectOnce, dispatch, dispatchAll)
  - src/state/search-state.service.ts, filter-state.service.ts (the
    per-slice services; the user service lives in the same file as the
    filter service in this snapshot)

  Modelling choices:
  - JavaScript values are embedded as the inductive type JsVal, so that
    the distinctions the code relies on (undefined vs null vs false,
    truthiness, optional chaining) are represented exactly.
  - The NgRx store is embedded by its two observable faces: the sequence
    of states it ever pushes to a subscriber (a List JsVal, empty when the
    store never emits) and the log of dispatched actions (a List ActionObj,
    dispatch appends).  store.select(f) maps f over the emitted states;
    the rxjs distinctUntilChanged the store applies compares successive
    values with JavaScript reference equality, which suppresses only
    emissions of the unchanged reference, so it is modelled as the
    identity on the emission sequence: none of the properties below
    (first emission, emptiness, latest value) is affected by suppression
    of consecutive duplicates.
  - selectOnce = select(f).pipe(take(1)).toPromise(): the promise resolves
    with the first emission and never resolves when there is none, so it
    is embedded as List.head? of the selected emissions (none = the
    promise never resolves).
-/

inductive JsVal where
  | undefined : JsVal
  | null : JsVal
  | bool : Bool → JsVal
  | num : Int → JsVal
  | str : String → JsVal
  | arr : List JsVal → JsVal
  | obj : List (String × JsVal) → JsVal
deriving Repr

/-- Field lookup in a JavaScript object literal (first binding wins). -/
def getField : List (String × JsVal) → String → JsVal
  | [], _ => .undefined
  | (k, v) :: rest, key => if k = key then v else getField rest key

/-- Plain property access a.b (reads a field of an object; absent fields
are undefined).  In the embedded code it is only applied to values that
are objects at that point. -/
def jsGet : JsVal → String → JsVal
  | .obj fields, k => getField fields k
  | _, _ => .undefined

/-- Optional chaining a?.b: undefined when a is undefined or null,
otherwise plain access. -/
def jsOpt (a : JsVal) (k : String) : JsVal :=
  match a with
  | .undefined => .undefined
  | .null => .undefined
  | v => jsGet v k

/-- JavaScript truthiness. -/
def truthy : JsVal → Bool
  | .undefined => false
  | .null => false
  | .bool b => b
  | .num n => n != 0
  | .str s => s != ""
  | .arr _ => true
  | .obj _ => true

/-- JavaScript a || b. -/
def jsOr (a b : JsVal) : JsVal := if truthy a then a else b

/-- JavaScript strict equality v === s against a string literal. -/
def jsEqStr (v : JsVal) (s : String) : Bool :=
  match v with
  | .str t => t == s
  | _ => false

/-- JavaScript Object.values (field values in declaration order; on an
array its elements, on a string its characters). -/
def objValues : JsVal → List JsVal
  | .obj fields => fields.map (fun f => f.2)
  | .arr xs => xs
  | .str s => s.toList.map (fun c => .str c.toString)
  | _ => []

/-- The predicate doc !== undefined used by the filter in selectAllDocs. -/
def isDefined : JsVal → Bool
  | .undefined => false
  | _ => true

/-- A value is nullish (undefined or null) — the condition under which
optional chaining short-circuits. -/
def isNullish : JsVal → Bool
  | .undefined => true
  | .null => true
  | _ => false

/-- An NgRx action object: the wire-level discriminator (the type string)
together with the props object the creator spread into it.  A creator
declared without props yields an action with an empty props object. -/
structure ActionObj where
  type : String
  payload : JsVal

/-- Discriminators of all action creators exported by shared-actions.ts,
in file order: searchAction, searchSuccessAction, searchFailedAction,
clearSearchAction, pageLimitChangedAction, pageNumberChangedAction,
sortByChangedAction, fetchUnpaywallLinksAction, updateIsSavedSearch,
setSearchNotificationMsg, saveCurrentSearchTermAction, updateSortByParam,
loadFiltersAction, filtersSuccessAction, filterFailedAction,
setDecodedJwt, loadUserSettingsSuccessAction,
resetUserSettingsSuccessAction, doneChangeUserSettingsLanguageAction,
doneSaveHistoryToggleAction, doneUseHistoryToggleAction,
doneAutoExtendMySessionToggleAction, setLoginFromStateAction,
changeRaSaveSearchDoneAction, resetLogoutReason, resetJwtAction.
Trailing blanks inside some strings are present in the source. -/
def sharedActionTypes : List String :=
  [ "[Search] Load search"
  , "[Search] Load search success"
  , "[Search] Load search failed"
  , "[Search] clear search"
  , "[Search] Page Limit Changed"
  , "[Search] Page Number Changed"
  , "[search] Sort By Changed"
  , "[Search] Fetch unpaywall links"
  , "[Search] Update Is Saved Search"
  , "[search] Set Search Notification Message"
  , "[Search] save current search term"
  , "[Filter] Update Sort By Param"
  , "[Filter] Load Filter"
  , "[Filter] Load Filter Success"
  , "[Filter] Load Filter Failed"
  , "[User] Set Decoded Jwt"
  , "[User-Settings] save user settings"
  , "[User-Settings] reset user settings success"
  , "[User-Settings] Done Change User Settings Language"
  , "[User-Settings] Done Update Save history toggle "
  , "[User-Settings] Done Update Use history toggle "
  , "[User-Settings] Done Update Auto Extend My Session toggle "
  , "[User-Settings] set login from state"
  , "[User-settings] dont update research-Assistant save search toggle"
  , "[User-Settings] reset logout reason"
  , "[User] reset jwt" ]

/-- createAction of shared-actions.ts line 31: the creator applied to its
props object produces the action object with the type string spread in. -/
def searchAction (propsObj : JsVal) : ActionObj :=
  { type := "[Search] Load search", payload := propsObj }

/-- createAction of shared-actions.ts line 36 (an effect-result creator). -/
def searchSuccessAction (propsObj : JsVal) : ActionObj :=
  { type := "[Search] Load search success", payload := propsObj }

/-- createAction of shared-actions.ts line 153 (an auth-flow creator). -/
def resetJwtAction (propsObj : JsVal) : ActionObj :=
  { type := "[User] reset jwt", payload := propsObj }

/-- createAction of shared-actions.ts line 43, declared without props:
the creator applied to no argument yields the bare type object. -/
def clearSearchAction : ActionObj :=
  { type := "[Search] clear search", payload := .obj [] }

/-- createAction of shared-actions.ts line 45. -/
def pageLimitChangedAction (propsObj : JsVal) : ActionObj :=
  { type := "[Search] Page Limit Changed", payload := propsObj }

/-- createAction of shared-actions.ts line 50. -/
def pageNumberChangedAction (propsObj : JsVal) : ActionObj :=
  { type := "[Search] Page Number Changed", payload := propsObj }

/-- createAction of shared-actions.ts line 56 (lowercase tag in source). -/
def sortByChangedAction (propsObj : JsVal) : ActionObj :=
  { type := "[search] Sort By Changed", payload := propsObj }

/-- createAction of shared-actions.ts line 66. -/
def updateIsSavedSearch (propsObj : JsVal) : ActionObj :=
  { type := "[Search] Update Is Saved Search", payload := propsObj }

/-- createAction of shared-actions.ts line 72 (lowercase tag in source). -/
def setSearchNotificationMsg (propsObj : JsVal) : ActionObj :=
  { type := "[search] Set Search Notification Message", payload := propsObj }

/-- createAction of shared-actions.ts line 107, exported as setDecodedJwt
and imported by the user service under the alias setDecodedJwtAction. -/
def setDecodedJwtAction (propsObj : JsVal) : ActionObj :=
  { type := "[User] Set Decoded Jwt", payload := propsObj }

/-- createAction of shared-actions.ts line 141. -/
def setLoginFromStateAction (propsObj : JsVal) : ActionObj :=
  { type := "[User-Settings] set login from state", payload := propsObj }

/-- createAction of shared-actions.ts line 151, declared without props;
exported as resetLogoutReason and imported by the user service under the
alias resetLogoutReasonAction. -/
def resetLogoutReasonAction : ActionObj :=
  { type := "[User-Settings] reset logout reason", payload := .obj [] }

/-- createAction of shared-actions.ts line 121. -/
def doneChangeUserSettingsLanguageAction (propsObj : JsVal) : ActionObj :=
  { type := "[User-Settings] Done Change User Settings Language", payload := propsObj }

/-- createAction of shared-actions.ts line 126 (trailing blank in the
source's type string). -/
def doneSaveHistoryToggleAction (propsObj : JsVal) : ActionObj :=
  { type := "[User-Settings] Done Update Save history toggle ", payload := propsObj }

/-- createAction of shared-actions.ts line 131 (trailing blank in the
source's type string). -/
def doneUseHistoryToggleAction (propsObj : JsVal) : ActionObj :=
  { type := "[User-Settings] Done Update Use history toggle ", payload := propsObj }

/-- createAction of shared-actions.ts line 136 (trailing blank in the
source's type string). -/
def doneAutoExtendMySessionToggleAction (propsObj : JsVal) : ActionObj :=
  { type := "[User-Settings] Done Update Auto Extend My Session toggle ", payload := propsObj }

/-- createAction of shared-actions.ts line 146 (lowercase settings tag in
the source). -/
def changeRaSaveSearchDoneAction (propsObj : JsVal) : ActionObj :=
  { type := "[User-settings] dont update research-Assistant save search toggle", payload := propsObj }

/-- store.dispatch: appends the action to the store's dispatch log. -/
def Store.dispatch (a : ActionObj) (log : List ActionObj) : List ActionObj :=
  log ++ [a]

/-- store.select(selector): the selector applied to every state the store
emits (see the header comment for the distinctUntilChanged modelling). -/
def Store.select (sel : JsVal → JsVal) (em : List JsVal) : List JsVal :=
  em.map sel

/-- StateHelper.select$ (state-helper.ts): returns this.store.select(selector). -/
def StateHelper.select' (sel : JsVal → JsVal) (em : List JsVal) : List JsVal :=
  Store.select sel em

/-- StateHelper.selectOnce: this.store.select(selector).pipe(take(1)).toPromise().
The promise resolves with the first emission of the selected stream and
never resolves (none) when that stream never emits. -/
def StateHelper.selectOnce (sel : JsVal → JsVal) (em : List JsVal) : Option JsVal :=
  (StateHelper.select' sel em).head?

/-- StateHelper.dispatch: this.store.dispatch(action). -/
def StateHelper.dispatch (a : ActionObj) (log : List ActionObj) : List ActionObj :=
  Store.dispatch a log

/-- StateHelper.dispatchAll: actions.forEach(action => this.store.dispatch(action)). -/
def StateHelper.dispatchAll (actions : List ActionObj) (log : List ActionObj) : List ActionObj :=
  actions.foldl (fun l a => Store.dispatch a l) log

/-- A reactive cell: its construction-time initial value and the value it
reads back given the states emitted so far (the latest projected value,
the initial value while nothing has been emitted). -/
structure SignalCell where
  initial : JsVal
  read : List JsVal → JsVal

/-- Modelled from the spec: StateHelper.selectSignal is called by the
services but its definition is not among the sources (state-helper.ts in
this snapshot stops at dispatchAll).  Per spec section 4.1,
createReactiveCell(projection, initialDefault) is a live, synchronously
readable cell that starts at initialDefault until the first emission
arrives and always reflects the latest projected value afterwards. -/
def StateHelper.selectSignal (sel : JsVal → JsVal) (initialDefault : JsVal) : SignalCell :=
  { initial := initialDefault
  , read := fun em => ((em.map sel).getLast?).getD initialDefault }

/-- Selector of SearchStateService.selectAllDocs$ (search-state.service.ts
lines 35-39). -/
def SearchStateService.selectAllDocsSel (state : JsVal) : JsVal :=
  let searchState := jsGet state "Search"
  if !(truthy (jsOpt searchState "entities")) then .arr []
  else .arr ((objValues (jsGet searchState "entities")).filter isDefined)

/-- Selector of SearchStateService.getAllDocs (lines 95-99); textually the
same traversal as selectAllDocs$. -/
def SearchStateService.getAllDocsSel (state : JsVal) : JsVal :=
  let searchState := jsGet state "Search"
  if !(truthy (jsOpt searchState "entities")) then .arr []
  else .arr ((objValues (jsGet searchState "entities")).filter isDefined)

/-- SearchStateService.getAllDocs: this.helper.selectOnce of the selector. -/
def SearchStateService.getAllDocs (em : List JsVal) : Option JsVal :=
  StateHelper.selectOnce SearchStateService.getAllDocsSel em

/-- Selector of SearchStateService.allDocsSignal (lines 127-131). -/
def SearchStateService.allDocsSignalSel (state : JsVal) : JsVal :=
  let searchState := jsGet state "Search"
  if !(truthy (jsOpt searchState "entities")) then .arr []
  else .arr ((objValues (jsGet searchState "entities")).filter isDefined)

/-- SearchStateService.allDocsSignal: this.helper.selectSignal(sel, [] as Doc[]). -/
def SearchStateService.allDocsSignal : SignalCell :=
  StateHelper.selectSignal SearchStateService.allDocsSignalSel (.arr [])

/-- Selector of SearchStateService.isLoadingSignal (line 155):
state.Search?.status === 'loading'. -/
def SearchStateService.isLoadingSignalSel (state : JsVal) : JsVal :=
  .bool (jsEqStr (jsOpt (jsGet state "Search") "status") "loading")

/-- SearchStateService.isLoadingSignal: this.helper.selectSignal(sel, false). -/
def SearchStateService.isLoadingSignal : SignalCell :=
  StateHelper.selectSignal SearchStateService.isLoadingSignalSel (.bool false)

/-- SearchStateService.search (lines 160-162): dispatches
searchAction(payload with the two fields) through the helper. -/
def SearchStateService.search (searchParams searchType : JsVal) (log : List ActionObj) : List ActionObj :=
  StateHelper.dispatch
    (searchAction (.obj [("searchParams", searchParams), ("searchType", searchType)])) log

/-- SearchStateService.clearSearch (lines 164-166): dispatches
clearSearchAction() through the helper. -/
def SearchStateService.clearSearch (log : List ActionObj) : List ActionObj :=
  StateHelper.dispatch clearSearchAction log

/-- SearchStateService.setPageLimit (lines 168-170): dispatches
pageLimitChangedAction with the limit field. -/
def SearchStateService.setPageLimit (limit : JsVal) (log : List ActionObj) : List ActionObj :=
  StateHelper.dispatch (pageLimitChangedAction (.obj [("limit", limit)])) log

/-- SearchStateService.setPageNumber (lines 172-174): dispatches
pageNumberChangedAction with the pageNumber field. -/
def SearchStateService.setPageNumber (pageNumber : JsVal) (log : List ActionObj) : List ActionObj :=
  StateHelper.dispatch (pageNumberChangedAction (.obj [("pageNumber", pageNumber)])) log

/-- SearchStateService.setSortBy (lines 176-178): dispatches
sortByChangedAction with the sort field. -/
def SearchStateService.setSortBy (sort : JsVal) (log : List ActionObj) : List ActionObj :=
  StateHelper.dispatch (sortByChangedAction (.obj [("sort", sort)])) log

/-- SearchStateService.setIsSavedSearch (lines 180-182): dispatches
updateIsSavedSearch with the isSavedSearch field. -/
def SearchStateService.setIsSavedSearch (isSavedSearch : JsVal) (log : List ActionObj) : List ActionObj :=
  StateHelper.dispatch (updateIsSavedSearch (.obj [("isSavedSearch", isSavedSearch)])) log

/-- SearchStateService.setSearchNotificationMessage (lines 184-186):
dispatches setSearchNotificationMsg with the msg field. -/
def SearchStateService.setSearchNotificationMessage (msg : JsVal) (log : List ActionObj) : List ActionObj :=
  StateHelper.dispatch (setSearchNotificationMsg (.obj [("msg", msg)])) log

/-- SearchStateService.dispatch (lines 120-122): this.helper.dispatch(action),
with the action parameter typed any. -/
def SearchStateService.dispatch (a : ActionObj) (log : List ActionObj) : List ActionObj :=
  StateHelper.dispatch a log

/-- Selector of FilterStateService.selectFilterState$ (filter-state.service.ts
line 25): state.filters, with no default. -/
def FilterStateService.selectFilterStateSel (state : JsVal) : JsVal :=
  jsGet state "filters"

/-- FilterStateService.dispatch (lines 95-97): this.helper.dispatch(action). -/
def FilterStateService.dispatch (a : ActionObj) (log : List ActionObj) : List ActionObj :=
  StateHelper.dispatch a log

/-- Selector of UserStateService.selectIsLoggedIn$ (line 154):
state.user?.isLoggedIn — note the missing default. -/
def UserStateService.selectIsLoggedInSel (state : JsVal) : JsVal :=
  jsOpt (jsGet state "user") "isLoggedIn"

/-- Selector of the snapshot UserStateService.isLoggedIn (line 189):
state.user?.isLoggedIn || false. -/
def UserStateService.isLoggedInOnceSel (state : JsVal) : JsVal :=
  jsOr (jsOpt (jsGet state "user") "isLoggedIn") (.bool false)

/-- UserStateService.isLoggedIn: this.helper.selectOnce of its selector. -/
def UserStateService.isLoggedIn (em : List JsVal) : Option JsVal :=
  StateHelper.selectOnce UserStateService.isLoggedInOnceSel em

/-- Selector of UserStateService.isLoggedInSignal (line 222):
state.user?.isLoggedIn, with signal default false. -/
def UserStateService.isLoggedInSignalSel (state : JsVal) : JsVal :=
  jsOpt (jsGet state "user") "isLoggedIn"

/-- UserStateService.isLoggedInSignal: this.helper.selectSignal(sel, false). -/
def UserStateService.isLoggedInSignal : SignalCell :=
  StateHelper.selectSignal UserStateService.isLoggedInSignalSel (.bool false)

/-- Selector of UserStateService.selectUserGroup$ (line 175):
state.user?.decodedJwt?.userGroup || 'GUEST'. -/
def UserStateService.selectUserGroupSel (state : JsVal) : JsVal :=
  jsOr (jsOpt (jsOpt (jsGet state "user") "decodedJwt") "userGroup") (.str "GUEST")

/-- Selector of UserStateService.userGroupSignal (line 234): the same
traversal, with signal default 'GUEST'. -/
def UserStateService.userGroupSignalSel (state : JsVal) : JsVal :=
  jsOr (jsOpt (jsOpt (jsGet state "user") "decodedJwt") "userGroup") (.str "GUEST")

/-- UserStateService.userGroupSignal: this.helper.selectSignal(sel, 'GUEST'). -/
def UserStateService.userGroupSignal : SignalCell :=
  StateHelper.selectSignal UserStateService.userGroupSignalSel (.str "GUEST")

/-- UserStateService.dispatch (lines 203-205): this.helper.dispatch(action). -/
def UserStateService.dispatch (a : ActionObj) (log : List ActionObj) : List ActionObj :=
  StateHelper.dispatch a log

/-- UserStateService.setDecodedJwt (lines 239-241): dispatches
setDecodedJwtAction with the decodedJwt field. -/
def UserStateService.setDecodedJwt (decodedJwt : JsVal) (log : List ActionObj) : List ActionObj :=
  StateHelper.dispatch (setDecodedJwtAction (.obj [("decodedJwt", decodedJwt)])) log

/-- UserStateService.setLoginFromState (lines 243-245): dispatches
setLoginFromStateAction with the value field. -/
def UserStateService.setLoginFromState (value : JsVal) (log : List ActionObj) : List ActionObj :=
  StateHelper.dispatch (setLoginFromStateAction (.obj [("value", value)])) log

/-- UserStateService.resetLogoutReason (lines 247-249): dispatches
resetLogoutReasonAction(). -/
def UserStateService.resetLogoutReason (log : List ActionObj) : List ActionObj :=
  StateHelper.dispatch resetLogoutReasonAction log

/-- UserStateService.setLanguage (lines 251-253): dispatches
doneChangeUserSettingsLanguageAction with the value field. -/
def UserStateService.setLanguage (value : JsVal) (log : List ActionObj) : List ActionObj :=
  StateHelper.dispatch (doneChangeUserSettingsLanguageAction (.obj [("value", value)])) log

/-- UserStateService.setSaveHistory (lines 255-257): dispatches
doneSaveHistoryToggleAction with the value field. -/
def UserStateService.setSaveHistory (value : JsVal) (log : List ActionObj) : List ActionObj :=
  StateHelper.dispatch (doneSaveHistoryToggleAction (.obj [("value", value)])) log

/-- UserStateService.setUseHistory (lines 259-261): dispatches
doneUseHistoryToggleAction with the value field. -/
def UserStateService.setUseHistory (value : JsVal) (log : List ActionObj) : List ActionObj :=
  StateHelper.dispatch (doneUseHistoryToggleAction (.obj [("value", value)])) log

/-- UserStateService.setAutoExtendMySession (lines 263-265): dispatches
doneAutoExtendMySessionToggleAction with the value field. -/
def UserStateService.setAutoExtendMySession (value : JsVal) (log : List ActionObj) : List ActionObj :=
  StateHelper.dispatch (doneAutoExtendMySessionToggleAction (.obj [("value", value)])) log

/-- UserStateService.setAllowSavingRaSearchHistory (lines 267-269):
dispatches changeRaSaveSearchDoneAction with the value field. -/
def UserStateService.setAllowSavingRaSearchHistory (value : JsVal) (log : List ActionObj) : List ActionObj :=
  StateHelper.dispatch (changeRaSaveSearchDoneAction (.obj [("value", value)])) log

/-- Folding the append-one-action step over a list appends the list. -/
theorem store_dispatch_foldl (acts log : List ActionObj) :
    acts.foldl (fun l a => Store.dispatch a l) log = log ++ acts := by
  induction acts generalizing log with
  | nil => simp
  | cons a rest ih =>
      rw [List.foldl_cons, ih]
      simp [Store.dispatch]

/-- C1: the module does produce dispatchable values carrying excluded
discriminators: shared-actions.ts exports searchSuccessAction, whose
discriminator is the effect-result string, and resetJwtAction, whose
discriminator is the auth-flow trigger string — both are in the exported
set, and a value made by resetJwtAction is forwarded by the escape-hatch
dispatch.  This evaluates the code at the failing input of the claim. -/
theorem searchSuccess_and_resetJwt_are_exported :
    (searchSuccessAction (.obj [])).type ∈ sharedActionTypes ∧
    (resetJwtAction (.obj [])).type ∈ sharedActionTypes ∧
    UserStateService.dispatch (resetJwtAction (.obj [("logoutReason", .str "user")])) []
      = [resetJwtAction (.obj [("logoutReason", .str "user")])] :=
  ⟨by decide, by decide, rfl⟩

/-- C2 counterexample: an action whose discriminator is not in the
exported declaration set is nevertheless forwarded to the store by
StateHelper.dispatch, refuting the claim that such a value can never be
forwarded. -/
theorem dispatch_forwards_nonGateway_action :
    StateHelper.dispatch ⟨"[Bogus] not in the gateway", .obj []⟩ []
      = [⟨"[Bogus] not in the gateway", .obj []⟩] ∧
    "[Bogus] not in the gateway" ∉ sharedActionTypes :=
  ⟨rfl, by decide⟩

/-- C2 amended: the escape-hatch dispatch of StateHelper and of each
service accepts an arbitrary action value (typed any in the source) and
forwards it to the store unchanged; closure of the dispatchable set is
maintained only by the curated export list of shared-actions.ts, not
enforced structurally at the dispatch primitive. -/
theorem dispatch_forwards_any_action_unchanged (a : ActionObj) (log : List ActionObj) :
    StateHelper.dispatch a log = log ++ [a] ∧
    SearchStateService.dispatch a log = log ++ [a] ∧
    FilterStateService.dispatch a log = log ++ [a] ∧
    UserStateService.dispatch a log = log ++ [a] :=
  ⟨rfl, rfl, rfl, rfl⟩

/-- C3: on any store that emits, the snapshot form resolves exactly to
the value the stream form holds at the moment of resolution — the first
(replay-latest) emission, which is the projection of the current state. -/
theorem selectOnce_resolves_to_current_stream_value
    (sel : JsVal → JsVal) (s : JsVal) (rest : List JsVal) :
    StateHelper.selectOnce sel (s :: rest) = (StateHelper.select' sel (s :: rest)).head? ∧
    StateHelper.selectOnce sel (s :: rest) = some (sel s) :=
  ⟨rfl, rfl⟩

/-- C4: the login-status stream projection evaluated at a state whose
user slice is absent yields undefined, not the boolean false its
declared Observable Bool type and the default-value law require; the
snapshot form of the same read does yield false, and the filter-state
stream projection likewise yields undefined rather than a typed
default.  This evaluates the code at the failing input of the claim. -/
theorem selectIsLoggedIn_stream_yields_undef_on_absent_user :
    UserStateService.selectIsLoggedInSel (.obj []) = JsVal.undefined ∧
    UserStateService.selectIsLoggedInSel (.obj []) ≠ JsVal.bool false ∧
    UserStateService.isLoggedInOnceSel (.obj []) = JsVal.bool false ∧
    FilterStateService.selectFilterStateSel (.obj []) = JsVal.undefined := by
  refine ⟨rfl, ?_, rfl, rfl⟩
  intro h
  exact nomatch h

/-- C5 counterexample: with the search slice never initialized but the
store emitting its root state (the normal situation), the snapshot
getAllDocs resolves — to the empty array — refuting the claim that it
never resolves when the slice is never initialized. -/
theorem getAllDocs_resolves_on_uninitialized_slice :
    jsGet (.obj []) "Search" = JsVal.undefined ∧
    SearchStateService.getAllDocs [.obj []] = some (JsVal.arr []) :=
  ⟨rfl, rfl⟩

/-- C5 amended: the snapshot form never resolves precisely when the
underlying store observable never emits at all; there is no implicit
timeout.  Mere non-initialization of the slice does not prevent
resolution — the snapshot then resolves with the projection's default. -/
theorem selectOnce_hangs_iff_store_never_emits (sel : JsVal → JsVal) (em : List JsVal) :
    StateHelper.selectOnce sel em = none ↔ em = [] := by
  cases em <;> simp [StateHelper.selectOnce, StateHelper.select', Store.select]

/-- C6 counterexample: at a state whose user slice is absent, the stream
form of the login-status read and the snapshot form of the same read
yield different values (undefined versus false), refuting the claim that
all access modes yield the identical derived value on every state. -/
theorem isLoggedIn_modes_disagree_on_absent_user :
    UserStateService.selectIsLoggedInSel (.obj []) ≠ UserStateService.isLoggedInOnceSel (.obj []) :=
  fun h => nomatch h

/-- C6 amended: whenever the node user.isLoggedIn holds an actual
boolean, all three access modes of the login-status read (stream,
snapshot, reactive cell) yield that same boolean; the modes can disagree
only when the user slice or the field is absent, where the stream and
cell projections yield undefined while the snapshot yields false. -/
theorem isLoggedIn_modes_agree_on_boolean_field (st : JsVal) (b : Bool)
    (h : jsOpt (jsGet st "user") "isLoggedIn" = JsVal.bool b) :
    UserStateService.selectIsLoggedInSel st = JsVal.bool b ∧
    UserStateService.isLoggedInOnceSel st = JsVal.bool b ∧
    UserStateService.isLoggedInSignalSel st = JsVal.bool b := by
  refine ⟨h, ?_, h⟩
  unfold UserStateService.isLoggedInOnceSel
  rw [h]
  cases b <;> simp [jsOr, truthy]

/-- C6 witness: the three access modes agree at a concrete state whose
user slice carries isLoggedIn = true. -/
theorem isLoggedIn_modes_agree_witness :
    UserStateService.selectIsLoggedInSel (.obj [("user", .obj [("isLoggedIn", .bool true)])]) = JsVal.bool true ∧
    UserStateService.isLoggedInOnceSel (.obj [("user", .obj [("isLoggedIn", .bool true)])]) = JsVal.bool true ∧
    UserStateService.isLoggedInSignalSel (.obj [("user", .obj [("isLoggedIn", .bool true)])]) = JsVal.bool true :=
  isLoggedIn_modes_agree_on_boolean_field _ true rfl

/-- C7: at any emitted state whose Search slice is absent, the snapshot
getAllDocs resolves to the empty array; the all-documents reactive cell
has initial value the empty array and the is-loading reactive cell has
initial value false. -/
theorem search_slice_uninitialized_defaults (st : JsVal) (rest : List JsVal)
    (h : jsGet st "Search" = JsVal.undefined) :
    SearchStateService.getAllDocs (st :: rest) = some (JsVal.arr []) ∧
    SearchStateService.allDocsSignal.initial = JsVal.arr [] ∧
    SearchStateService.isLoadingSignal.initial = JsVal.bool false := by
  refine ⟨?_, rfl, rfl⟩
  simp [SearchStateService.getAllDocs, StateHelper.selectOnce, StateHelper.select',
    Store.select, SearchStateService.getAllDocsSel, h, jsOpt, truthy]

/-- C7 witness: the empty root state has no Search slice and the three
defaults evaluate as claimed. -/
theorem search_slice_uninitialized_defaults_witness :
    SearchStateService.getAllDocs [.obj []] = some (JsVal.arr []) ∧
    SearchStateService.allDocsSignal.initial = JsVal.arr [] ∧
    SearchStateService.isLoadingSignal.initial = JsVal.bool false :=
  search_slice_uninitialized_defaults (.obj []) [] rfl

/-- C8: at any state whose node user.decodedJwt is absent (nullish), the
user-group projection yields the literal string GUEST — not null or an
absent marker — identically on the stream form and on the reactive-cell
form, whose initial value is GUEST and whose read after that state is
emitted is GUEST as well. -/
theorem userGroup_defaults_to_GUEST (st : JsVal) (em : List JsVal)
    (h : isNullish (jsOpt (jsGet st "user") "decodedJwt") = true) :
    UserStateService.selectUserGroupSel st = JsVal.str "GUEST" ∧
    UserStateService.userGroupSignalSel st = JsVal.str "GUEST" ∧
    UserStateService.userGroupSignal.initial = JsVal.str "GUEST" ∧
    UserStateService.userGroupSignal.read (em ++ [st]) = JsVal.str "GUEST" := by
  have hsel : UserStateService.selectUserGroupSel st = JsVal.str "GUEST" := by
    unfold UserStateService.selectUserGroupSel
    cases hv : jsOpt (jsGet st "user") "decodedJwt" <;>
      simp [hv, isNullish] at h ⊢ <;> simp [jsOpt, jsOr, truthy]
  have hsig : UserStateService.userGroupSignalSel st = JsVal.str "GUEST" := hsel
  refine ⟨hsel, hsig, rfl, ?_⟩
  simp [UserStateService.userGroupSignal, StateHelper.selectSignal, List.getLast?_concat, hsig]

/-- C8 witness: at the empty root state (user slice absent, hence
decodedJwt nullish) both forms yield GUEST. -/
theorem userGroup_defaults_to_GUEST_witness :
    UserStateService.selectUserGroupSel (.obj []) = JsVal.str "GUEST" ∧
    UserStateService.userGroupSignalSel (.obj []) = JsVal.str "GUEST" ∧
    UserStateService.userGroupSignal.initial = JsVal.str "GUEST" ∧
    UserStateService.userGroupSignal.read ([] ++ [.obj []]) = JsVal.str "GUEST" :=
  userGroup_defaults_to_GUEST (.obj []) [] rfl

/-- C9: every typed dispatch helper of the services — all fifteen of
them, covering every descriptor the gateway's closed set issues through
a typed helper — forwards exactly one dispatch to the store, carrying
exactly that creator's discriminator and the given payload fields
untransformed: each helper extends the dispatch log by exactly the one
action it names, and a single forwarded dispatch grows the log by one. -/
theorem typed_helpers_dispatch_exactly_once :
    (∀ (p t : JsVal) (log : List ActionObj), SearchStateService.search p t log
        = log ++ [searchAction (.obj [("searchParams", p), ("searchType", t)])]) ∧
    (∀ (log : List ActionObj), SearchStateService.clearSearch log
        = log ++ [clearSearchAction]) ∧
    (∀ (v : JsVal) (log : List ActionObj), SearchStateService.setPageLimit v log
        = log ++ [pageLimitChangedAction (.obj [("limit", v)])]) ∧
    (∀ (v : JsVal) (log : List ActionObj), SearchStateService.setPageNumber v log
        = log ++ [pageNumberChangedAction (.obj [("pageNumber", v)])]) ∧
    (∀ (v : JsVal) (log : List ActionObj), SearchStateService.setSortBy v log
        = log ++ [sortByChangedAction (.obj [("sort", v)])]) ∧
    (∀ (v : JsVal) (log : List ActionObj), SearchStateService.setIsSavedSearch v log
        = log ++ [updateIsSavedSearch (.obj [("isSavedSearch", v)])]) ∧
    (∀ (v : JsVal) (log : List ActionObj), SearchStateService.setSearchNotificationMessage v log
        = log ++ [setSearchNotificationMsg (.obj [("msg", v)])]) ∧
    (∀ (v : JsVal) (log : List ActionObj), UserStateService.setDecodedJwt v log
        = log ++ [setDecodedJwtAction (.obj [("decodedJwt", v)])]) ∧
    (∀ (v : JsVal) (log : List ActionObj), UserStateService.setLoginFromState v log
        = log ++ [setLoginFromStateAction (.obj [("value", v)])]) ∧
    (∀ (log : List ActionObj), UserStateService.resetLogoutReason log
        = log ++ [resetLogoutReasonAction]) ∧
    (∀ (v : JsVal) (log : List ActionObj), UserStateService.setLanguage v log
        = log ++ [doneChangeUserSettingsLanguageAction (.obj [("value", v)])]) ∧
    (∀ (v : JsVal) (log : List ActionObj), UserStateService.setSaveHistory v log
        = log ++ [doneSaveHistoryToggleAction (.obj [("value", v)])]) ∧
    (∀ (v : JsVal) (log : List ActionObj), UserStateService.setUseHistory v log
        = log ++ [doneUseHistoryToggleAction (.obj [("value", v)])]) ∧
    (∀ (v : JsVal) (log : List ActionObj), UserStateService.setAutoExtendMySession v log
        = log ++ [doneAutoExtendMySessionToggleAction (.obj [("value", v)])]) ∧
    (∀ (v : JsVal) (log : List ActionObj), UserStateService.setAllowSavingRaSearchHistory v log
        = log ++ [changeRaSaveSearchDoneAction (.obj [("value", v)])]) ∧
    (∀ (a : ActionObj) (log : List ActionObj),
        (StateHelper.dispatch a log).length = log.length + 1) := by
  refine ⟨fun _ _ _ => rfl, fun _ => rfl, fun _ _ => rfl, fun _ _ => rfl, fun _ _ => rfl,
    fun _ _ => rfl, fun _ _ => rfl, fun _ _ => rfl, fun _ _ => rfl, fun _ => rfl,
    fun _ _ => rfl, fun _ _ => rfl, fun _ _ => rfl, fun _ _ => rfl, fun _ _ => rfl, ?_⟩
  intro a log
  simp [StateHelper.dispatch, Store.dispatch]

/-- C10: dispatchAll forwards each action of the list to the store
exactly once in list order (the log is extended by exactly the list),
forwards nothing on the empty list, and is observationally equal to
folding StateHelper.dispatch over the list. -/
theorem dispatchAll_forwards_each_in_order (acts log : List ActionObj) :
    StateHelper.dispatchAll acts log = log ++ acts ∧
    StateHelper.dispatchAll [] log = log ∧
    StateHelper.dispatchAll acts log = acts.foldl (fun l a => StateHelper.dispatch a l) log :=
  ⟨store_dispatch_foldl acts log, rfl, rfl⟩
